import Mathlib

/-!
Verification of the Workday autofill content script
(src/src/public/contentScripts/workday.js) of the Trackr extension.

The JavaScript source is shallowly embedded: DOM elements become records of
their matcher-relevant attributes, DOM interactions become an explicit effect
trace, thrown JavaScript errors become an explicit `Except` result, and the
orchestrator state (the working field map, the retry counter, the
re-entrancy flag) becomes an explicit state record.  Helpers of the
extension that are not under src/ (the native value setter, the month
lookup, the storage reads, the per-site field map) are modelled from the
spec and marked as such in their doc comments.
-/

namespace Trackr

/-! ## String primitives with JavaScript semantics

String operations are implemented on the underlying character lists so that
every definition reduces inside the kernel.  They mirror the JavaScript
methods used by workday.js: `toLowerCase`, `trim`, `includes`, single
character `split`, and string truthiness. -/

/-- JavaScript `String.prototype.toLowerCase` (ASCII range, which covers
every string the script manipulates). -/
def jsToLower (s : String) : String := ⟨s.data.map Char.toLower⟩

/-- Character-list prefix test used to implement substring search. -/
def isPrefixChars : List Char → List Char → Bool
  | [], _ => true
  | _ :: _, [] => false
  | c :: cs, d :: ds => c == d && isPrefixChars cs ds

/-- Character-list substring test used to implement substring search. -/
def isSubChars (pat : List Char) : List Char → Bool
  | [] => isPrefixChars pat []
  | s@(_ :: rest) => isPrefixChars pat s || isSubChars pat rest

/-- JavaScript `String.prototype.includes`: `jsIncludes s pat` is true when
`pat` occurs in `s` as a contiguous substring (always true for empty `pat`,
matching JavaScript). -/
def jsIncludes (s pat : String) : Bool := isSubChars pat.data s.data

/-- Whitespace predicate backing the model of `trim` (the script only meets
ASCII whitespace). -/
def jsIsWhite (c : Char) : Bool := c == ' ' || c == '\t' || c == '\n' || c == '\r'

/-- JavaScript `String.prototype.trim`. -/
def jsTrim (s : String) : String :=
  ⟨((s.data.dropWhile jsIsWhite).reverse.dropWhile jsIsWhite).reverse⟩

/-- JavaScript `String.prototype.split` with a single-character separator,
the only form workday.js uses (splitting on "-" and on " "). -/
def splitOnChar (c : Char) : List Char → List (List Char)
  | [] => [[]]
  | d :: rest =>
    let r := splitOnChar c rest
    if d == c then [] :: r
    else
      match r with
      | [] => [[d]]
      | h :: t => (d :: h) :: t

/-- String-level wrapper for `splitOnChar`. -/
def jsSplit (s : String) (c : Char) : List String :=
  (splitOnChar c s.data).map (fun l => String.mk l)

/-- JavaScript truthiness of a string: the empty string is falsy. -/
def jsTruthy (s : String) : Bool := !s.data.isEmpty

/-- Test of the regular expression /^[\d\s\-\+\(\)]+$/ used by
handleInputElement for inputs of type tel: one or more characters, each a
digit, whitespace, or one of - + ( ). -/
def telOk (s : String) : Bool :=
  !s.data.isEmpty &&
    s.data.all (fun c => c.isDigit || jsIsWhite c || c == '-' || c == '+' || c == '(' || c == ')')

/-! ## DOM element model

An element records exactly the data the content script inspects: the tag
name (workdayQuery filters by `form.querySelectorAll(type)`), the candidate
matching attributes, the input type, visibility and disabled state, and,
for select elements, the option list.  `ref` is an identity used to report
effects; no predicate of the script reads it. -/

/-- One option of a select element: its identity and its text content. -/
structure SelOpt where
  ref : Nat
  text : String
deriving DecidableEq, Repr

/-- Model of a DOM element as seen by workday.js.  `idAttr` and `nameAttr`
model the `id` and `name` element properties, which are empty strings when
the attribute is absent; the remaining attributes model `getAttribute`
results, which are null (here `none`) when absent. -/
structure Elem where
  ref : Nat
  tag : String
  typeAttr : String
  idAttr : String
  nameAttr : String
  dataAutomationId : Option String
  dataAutomationLabel : Option String
  ariaLabel : Option String
  placeholder : Option String
  titleAttr : Option String
  offsetParentIsNull : Bool
  disabled : Bool
  options : List SelOpt
deriving DecidableEq, Repr

/-- The candidate attribute list built at the top of workdayQuery and
workdayQueryAll: id, name, data-automation-id, data-automation-label,
aria-label, placeholder, title, each lowercased and trimmed (the optional
chaining `?.` leaves absent attributes undefined, here `none`). -/
def candAttrs (e : Elem) : List (Option String) :=
  [some (jsTrim (jsToLower e.idAttr)),
   some (jsTrim (jsToLower e.nameAttr)),
   e.dataAutomationId.map (fun s => jsTrim (jsToLower s)),
   e.dataAutomationLabel.map (fun s => jsTrim (jsToLower s)),
   e.ariaLabel.map (fun s => jsTrim (jsToLower s)),
   e.placeholder.map (fun s => jsTrim (jsToLower s)),
   e.titleAttr.map (fun s => jsTrim (jsToLower s))]

/-- Per-attribute test of workdayQuery: the attribute is defined
(`attributes[i] != undefined`, which in JavaScript is false for both null
and undefined but true for the empty string), contains the normalized key,
and contains neither exclusion token. -/
def attrHitQ (normalizedParam : String) : Option String → Bool
  | none => false
  | some s =>
    jsIncludes s normalizedParam && !jsIncludes s "phonecode" && !jsIncludes s "countrycode"

/-- Per-attribute test of workdayQueryAll, which instead tests truthiness
(`attributes[i] &&`), so an empty attribute string is skipped. -/
def attrHitAll (normalizedParam : String) : Option String → Bool
  | none => false
  | some s =>
    jsTruthy s && jsIncludes s normalizedParam && !jsIncludes s "phonecode" &&
      !jsIncludes s "countrycode"

/-- Model of `form.querySelectorAll(type)` for the plain tag selectors the
script passes ("input", "textarea", "select", "button"): the elements with
that tag, in document order. -/
def queryTag (doc : List Elem) (t : String) : List Elem :=
  doc.filter (fun e => e.tag == t)

/-- workday.js lines 64-90: the singular field matcher.  `doc` is the
subtree rooted at the `form` argument in document order. -/
def workdayQuery (jobParam : String) (doc : List Elem) (t : String) : Option Elem :=
  (queryTag doc t).find? (fun e => (candAttrs e).any (attrHitQ (jsToLower jobParam)))

/-- workday.js lines 91-119: the plural field matcher, returning all
matches in document order. -/
def workdayQueryAll (jobParam : String) (doc : List Elem) (t : String) : List Elem :=
  (queryTag doc t).filter (fun e => (candAttrs e).any (attrHitAll (jsToLower jobParam)))

/-- Matching condition as the spec words it: some candidate attribute is
present, contains the lowercased key as a substring, and contains neither
exclusion token. -/
def matchesSpec (key : String) (e : Elem) : Prop :=
  ∃ a ∈ candAttrs e, ∃ s, a = some s ∧
    jsIncludes s (jsToLower key) = true ∧ jsIncludes s "phonecode" = false ∧
    jsIncludes s "countrycode" = false

/-! ## Stage detector (workday.js lines 1-62) -/

/-- The active step node of a progress bar: the text contents of its child
elements, its own text content, and its aria-label. -/
structure StepNode where
  childTexts : List String
  text : Option String
  ariaLabel : Option String
deriving DecidableEq, Repr

/-- A progress-bar container and the active step found inside it (the
prioritized querySelector chains of lines 5-9 and 49-53 are abstracted to
the element they produce). -/
structure ProgressBarNode where
  curStep : Option StepNode
deriving DecidableEq, Repr

/-- The document view consumed by getCurStageWorkday: the progress bar if
one of the candidate selectors matches, the trimmed-later text contents of
all heading-role elements in document order, and the body text. -/
structure Doc where
  progressBar : Option ProgressBarNode
  headings : List String
  bodyText : String
deriving DecidableEq, Repr

/-- The fixed stage vocabulary of workday.js lines 13-27, in source order. -/
def stageIndicators : List String :=
  ["My Information", "My Experience", "Voluntary Disclosures", "Self Identify",
   "Additional Information", "Review", "Submit", "Personal Information",
   "Work Experience", "Education", "Skills", "References", "Cover Letter"]

/-- Inner loop of the fallback path: the first vocabulary entry contained
in the given text (lines 33-37 and 41-45). -/
def scanIndicators (t : String) : List String → Option String
  | [] => none
  | stg :: rest => if jsIncludes t stg then some stg else scanIndicators t rest

/-- Outer loop of the fallback path: headings in document order, each
trimmed and scanned against the vocabulary (lines 31-38). -/
def scanHeadings : List String → Option String
  | [] => none
  | hd :: rest =>
    match scanIndicators (jsTrim hd) stageIndicators with
    | some stg => some stg
    | none => scanHeadings rest

/-- Label extraction from the active step (lines 55-59):
children[2] text, else trimmed text content, else trimmed aria-label. -/
def extractStep (cs : StepNode) : Option String :=
  (cs.childTexts[2]? <|> cs.text.map jsTrim) <|> cs.ariaLabel.map jsTrim

/-- workday.js lines 1-62: stage detection.  Returns none for a null form,
otherwise follows the progress-bar path when a progress bar exists and the
heading/body fallback when it does not. -/
def getCurStageWorkday (form : Option Doc) : Option String :=
  match form with
  | none => none
  | some d =>
    match d.progressBar with
    | none =>
      match scanHeadings d.headings with
      | some stg => some stg
      | none => scanIndicators d.bodyText stageIndicators
    | some pb =>
      match pb.curStep with
      | none => none
      | some cs => extractStep cs

/-! ## Effects and thrown errors

Every DOM interaction of the script is recorded in an effect trace; every
JavaScript exception becomes an `Except.error`.  Numeric sleep durations
appear literally in the source; named durations come from the `delays`
helper object that lives outside src/ and are kept symbolic. -/

/-- A sleep duration: a literal millisecond count or a named entry of the
`delays` helper object (not under src/). -/
inductive Dur where
  | ms (n : Nat)
  | sym (name : String)
deriving DecidableEq, Repr

/-- A JavaScript value written to the DOM.  `undef` models `undefined`
flowing into a write (for example a missing year component). -/
inductive JVal where
  | str (s : String)
  | num (n : Nat)
  | bool (b : Bool)
  | undef
deriving DecidableEq, Repr

/-- One observable DOM interaction of the content script. -/
inductive Effect where
  | sleep (d : Dur)
  | click (ref : Nat)
  | focus (ref : Nat)
  | blur (ref : Nat)
  | setNative (ref : Nat) (v : JVal)
  | setValueProp (ref : Nat) (v : String)
  | setAttr (ref : Nat) (name v : String)
  | dispatch (ref : Nat) (event : String)
  | setFiles (ref : Nat) (fileName : String)
  | selectOption (ref : Nat)
deriving DecidableEq, Repr

/-- Effects other than waiting are writes to the page. -/
def Effect.isWrite : Effect → Bool
  | .sleep _ => false
  | _ => true

/-- A thrown JavaScript error (TypeError from a property access on
null/undefined, ReferenceError from an undeclared identifier). -/
inductive JsError where
  | typeErr (msg : String)
  | refErr (name : String)
deriving DecidableEq, Repr

deriving instance DecidableEq for Except

/-- Computation model for the handlers: a result or a thrown error,
together with the effect trace produced up to that point (effects emitted
before a throw persist). -/
def M (α : Type) : Type := Except JsError α × List Effect

instance monadM : Monad M where
  pure a := (Except.ok a, [])
  bind x f :=
    match x with
    | (Except.ok a, tr) =>
      match f a with
      | (r, tr2) => (r, tr ++ tr2)
    | (Except.error e, tr) => (Except.error e, tr)

instance decEqM {α : Type} [DecidableEq α] : DecidableEq (M α) :=
  inferInstanceAs (DecidableEq (Except JsError α × List Effect))

/-- Record one effect. -/
def emit (eff : Effect) : M Unit := (Except.ok (), [eff])

/-- Throw a JavaScript error. -/
def throwJs {α : Type} (e : JsError) : M α := (Except.error e, [])

/-- Model of the `sleep` helper (not under src/): it only waits. -/
def sleepM (d : Dur) : M Unit := emit (Effect.sleep d)

/-- JavaScript `element.click()` on a possibly undefined element: a click
effect, or a TypeError when the element is undefined. -/
def clickElem (t : Option Elem) : M Unit :=
  match t with
  | none => throwJs (JsError.typeErr "click of undefined")
  | some e => emit (Effect.click e.ref)

/-- Modelled from the spec: the Native Value Setter (setNativeValue, a
helper that is not under src/) writes through the prototype value setter
and dispatches the synthetic events a user interaction would produce; it
is abstracted as a single native-write effect.  Calling it with an
undefined element throws, since it must read the prototype of its
argument. -/
def setNativeValue (t : Option Elem) (v : JVal) : M Unit :=
  match t with
  | none => throwJs (JsError.typeErr "setNativeValue of undefined")
  | some e => emit (Effect.setNative e.ref v)

/-! ## External data consumed by the handlers

The profile store, the parsed resume and the widgets the handlers query
from `document` are collected in an environment record.  Storage reads
(`getStorageDataLocal`, not under src/) are modelled as pure lookups into
this environment. -/

/-- One entry of `experiences[]` of the parsed resume
(spec section 3, Experience). -/
structure ExpEntry where
  jobTitle : String
  jobEmployer : String
  jobDuration : String
  isCurrentEmployer : Bool
  roleBulletsString : String
deriving DecidableEq, Repr

/-- The parsed `Resume_details` blob (already decoded from JSON; the
string-or-object parse step of the source is collapsed into this shape). -/
structure ResumeDetails where
  skills : List String
  experiences : List ExpEntry
deriving DecidableEq, Repr

/-- The stored resume file: base64 content and file name. -/
structure ResumeBlob where
  b64 : String
  fileName : String
deriving DecidableEq, Repr

/-- The text box embedded in the skills multiselect
(`dropElement.children[..].children[0]`). -/
structure SearchBox where
  ref : Nat
  dataAutomationId : Option String
deriving DecidableEq, Repr

/-- The multiselect container of the skills form field and the two child
positions the script probes for the search box. -/
structure Multiselect where
  containerRef : Nat
  inputAt10 : Option SearchBox
  inputAt00 : Option SearchBox
deriving DecidableEq, Repr

/-- One rendered option of the virtualized results list: its aria-label
(null when absent), its identity, and its first child if any. -/
structure GridOpt where
  ariaLabel : Option String
  ref : Nat
  firstChildRef : Option Nat
deriving DecidableEq, Repr

/-- One div of the custom dropdown listbox. -/
structure OptDiv where
  ref : Nat
  text : String
deriving DecidableEq, Repr

/-- The world the handlers run against.  `doc` gives the document content
as a function of how many add-experience clicks have been performed (the
target page mounts one repeated block per click; every other query sees
`doc 0`).  `stageDoc` is the view consumed by the stage detector.  The
remaining fields model `document.querySelector` results and storage
reads. -/
structure Env where
  stageDoc : Doc
  doc : Nat → List Elem
  profile : List (String × String)
  localResume : Option ResumeBlob
  resumeDetails : Option ResumeDetails
  formFieldSkills : Option Multiselect
  skillsGrid : Option (List GridOpt)
  discContainer : Option Nat
  discInput : Option Nat
  discGrid : Option (List GridOpt)
  listbox : Option (List OptDiv)

/-- Lookup in an association list, modelling a JavaScript object property
read. -/
def lookupAssoc {α : Type} (l : List (String × α)) (k : String) : Option α :=
  (l.find? (fun p => p.1 == k)).map (fun p => p.2)

/-! ## Field handlers (workday.js lines 253-575) -/

/-- workday.js lines 253-272: the resume upload handler.  True when both a
stored resume and a matching file input exist. -/
def handleResume (jobParam : String) (env : Env) : M Bool :=
  let inputElement := workdayQuery jobParam (env.doc 0) "input"
  match env.localResume, inputElement with
  | some blob, some ie =>
    if jsTruthy blob.b64 then do
      emit (Effect.setFiles ie.ref blob.fileName)
      emit (Effect.dispatch ie.ref "change")
      sleepM (Dur.sym "long")
      pure true
    else pure false
  | _, _ => pure false

/-- workday.js lines 313-328 and 468-483 (the same loop appears in
handleSkills and in the Discipline branch of handleInputElement): scan the
rendered options for a case-insensitive match of `needle`, click the first
clean match, and remember ambiguous matches (label containing a vertical
bar) in backupOption.  The source assigns `backupOption = o.children[o]`:
an HTMLCollection indexed by an element object falls back to a name lookup
and yields undefined, so the variable is in fact always undefined; the
model records that value faithfully.  Returns the final value of
backupOption. -/
def gridPickLoop (needle : String) : List GridOpt → Option Nat → M (Option Nat)
  | [], backup => pure backup
  | o :: rest, backup =>
    match o.ariaLabel with
    | none => throwJs (JsError.typeErr "toLowerCase of null aria-label")
    | some lab =>
      if jsIncludes (jsToLower lab) (jsToLower needle) then
        if jsIncludes (jsToLower lab) "|" then
          gridPickLoop needle rest none
        else
          match o.firstChildRef with
          | none => throwJs (JsError.typeErr "click of undefined child")
          | some cr => do
            emit (Effect.click cr)
            pure none
      else gridPickLoop needle rest backup

/-- Wrapper for the option scan: run the loop, then perform the trailing
`if (backupOption != undefined) backupOption.click()`. -/
def gridPick (needle : String) (opts : List GridOpt) : M Unit := do
  let backup ← gridPickLoop needle opts none
  match backup with
  | some r => emit (Effect.click r)
  | none => pure ()

/-- Body of the per-skill loop of handleSkills (lines 286-331): open the
multiselect, locate the search box, type the skill, fire the search keys,
then scan the virtualized results list if it rendered. -/
def skillStep (env : Env) (ms : Multiselect) (skill : String) : M Unit := do
  emit (Effect.click ms.containerRef)
  sleepM (Dur.ms 500)
  let sb ←
    match ms.inputAt10 with
    | none => throwJs (JsError.typeErr "children[0] of undefined")
    | some sb0 =>
      if sb0.dataAutomationId == some "monikerSearchBox" then pure sb0
      else
        match ms.inputAt00 with
        | none => throwJs (JsError.typeErr "children[0] of undefined")
        | some sb1 => pure sb1
  emit (Effect.focus sb.ref)
  sleepM (Dur.ms 200)
  emit (Effect.setValueProp sb.ref skill)
  emit (Effect.setAttr sb.ref "value" skill)
  emit (Effect.dispatch sb.ref "input")
  emit (Effect.dispatch sb.ref "change")
  sleepM (Dur.ms 200)
  emit (Effect.dispatch sb.ref "keydown")
  emit (Effect.dispatch sb.ref "keyup")
  sleepM (Dur.ms 1000)
  match env.skillsGrid with
  | none => pure ()
  | some opts => gridPick skill opts

/-- Iteration of the skills loop over `val.skills`. -/
def skillsLoop (env : Env) (ms : Multiselect) : List String → M Unit
  | [] => pure ()
  | skill :: rest => do
    skillStep env ms skill
    skillsLoop env ms rest

/-- workday.js lines 273-337: the skills handler.  When Resume_details is
absent it returns false; otherwise it dereferences the formField-skills
container (throwing a TypeError when that querySelector returned null,
since the source calls querySelector on it immediately) and runs the
per-skill choreography. -/
def handleSkills (env : Env) : M Bool :=
  match env.resumeDetails with
  | none => pure false
  | some rd =>
    match env.formFieldSkills with
    | none => throwJs (JsError.typeErr "querySelector of null")
    | some ms => do
      skillsLoop env ms rd.skills
      sleepM (Dur.sym "short")
      pure true

/-- Modelled from the spec: monthToNumber, the month-name-to-number lookup
used by the work-experience handler, is not under src/.  It maps English
month names (three-letter abbreviation or full name, any case) to 1..12. -/
def monthToNumber (s : String) : Option Nat :=
  lookupAssoc
    [("jan", 1), ("feb", 2), ("mar", 3), ("apr", 4), ("may", 5), ("jun", 6),
     ("jul", 7), ("aug", 8), ("sep", 9), ("oct", 10), ("nov", 11), ("dec", 12),
     ("january", 1), ("february", 2), ("march", 3), ("april", 4), ("june", 6),
     ("july", 7), ("august", 8), ("september", 9), ("october", 10),
     ("november", 11), ("december", 12)]
    (jsToLower s)

/-- JVal of an optional month number (undefined when the name is not in
the table, mirroring an undefined lookup result flowing onward). -/
def jvalOfMonth (w : Option String) : JVal :=
  match w with
  | none => JVal.undef
  | some s =>
    match monthToNumber s with
    | none => JVal.undef
    | some n => JVal.num n

/-- JVal of an optional string (undefined when a split index was out of
range). -/
def jvalOfWord (w : Option String) : JVal :=
  match w with
  | none => JVal.undef
  | some s => JVal.str s

/-- Body of the per-experience loop of handleWorkExperience (lines
350-414) for the entry at position `i`: click the add button, wait, fetch
the i-th match of every sub-field query from the document as it stands
after `i + 1` clicks, parse the duration, and write every sub-field. -/
def expStep (env : Env) (btn : Option Elem) (exp : ExpEntry) (i : Nat) : M Unit := do
  clickElem btn
  sleepM (Dur.ms 1250)
  let d := env.doc (i + 1)
  let jobTitle := (workdayQueryAll "jobTitle" d "input")[i]?
  let jobCompany := (workdayQueryAll "companyName" d "input")[i]?
  let isCurrentEmployer := (workdayQueryAll "currentlyWorkHere" d "input")[i]?
  let description := (workdayQueryAll "roleDescription" d "textarea")[i]?
  let startMonth := (workdayQueryAll "startDate-dateSectionMonth" d "input")[i]?
  let startYear := (workdayQueryAll "startDate-dateSectionYear" d "input")[i]?
  let endMonth := (workdayQueryAll "endDate-dateSectionMonth" d "input")[i]?
  let endYear := (workdayQueryAll "endDate-dateSectionYear" d "input")[i]?
  setNativeValue jobTitle (JVal.str exp.jobTitle)
  sleepM (Dur.ms 500)
  setNativeValue jobCompany (JVal.str exp.jobEmployer)
  sleepM (Dur.ms 500)
  setNativeValue isCurrentEmployer (JVal.bool exp.isCurrentEmployer)
  sleepM (Dur.ms 500)
  let parts := jsSplit exp.jobDuration '-'
  let p0 := (parts[0]?).map jsTrim
  let sMonth := jvalOfMonth (p0.bind (fun p => (jsSplit p ' ')[0]?))
  let sYear := jvalOfWord (p0.bind (fun p => (jsSplit p ' ')[1]?))
  match parts[1]? with
  | none =>
    -- jobDuration without "-": split("-")[1] is undefined, so .trim() throws
    throwJs (JsError.typeErr "trim of undefined")
  | some p1raw => do
    let p1 := jsTrim p1raw
    let eMonth := jvalOfMonth ((jsSplit p1 ' ')[0]?)
    let eYear := jvalOfWord ((jsSplit p1 ' ')[1]?)
    clickElem startMonth
    setNativeValue startMonth sMonth
    sleepM (Dur.ms 600)
    clickElem startYear
    setNativeValue startYear sYear
    sleepM (Dur.ms 600)
    clickElem endMonth
    setNativeValue endMonth eMonth
    sleepM (Dur.ms 600)
    clickElem endYear
    setNativeValue endYear eYear
    sleepM (Dur.ms 600)
    setNativeValue description (JVal.str exp.roleBulletsString)

/-- The per-experience loop, carrying the positional index `i`. -/
def expLoop (env : Env) (btn : Option Elem) : List ExpEntry → Nat → M Unit
  | [], _ => pure ()
  | exp :: rest, i => do
    expStep env btn exp i
    expLoop env btn rest (i + 1)

/-- workday.js lines 338-421: the work-experience handler.  False when
Resume_details is absent; otherwise the add button is resolved once via
workdayQuery and one block is filled per experience entry. -/
def handleWorkExperience (jobParam : String) (env : Env) : M Bool :=
  match env.resumeDetails with
  | none => pure false
  | some rd => do
    let addExpBtn := workdayQuery jobParam (env.doc 0) "button"
    expLoop env addExpBtn rd.experiences 0
    sleepM (Dur.sym "short")
    pure true

/-- Discipline branch of handleInputElement (lines 442-490): open the
multiselect container, type into the education field-of-study input, fire
the search keys, scan the rendered list, and report true; false when the
container or the input is missing. -/
def disciplineBranch (fillValue : String) (env : Env) : M Bool :=
  match env.discContainer with
  | none => pure false
  | some dropRef => do
    emit (Effect.click dropRef)
    sleepM (Dur.ms 1000)
    match env.discInput with
    | none => pure false
    | some di => do
      emit (Effect.setValueProp di fillValue)
      emit (Effect.setAttr di "value" fillValue)
      sleepM (Dur.ms 500)
      emit (Effect.dispatch di "keydown")
      sleepM (Dur.ms 2000)
      emit (Effect.dispatch di "keyup")
      match env.discGrid with
      | none => pure ()
      | some opts => gridPick fillValue opts
      pure true

/-- workday.js lines 424-510: the body of the try block of
handleInputElement.  The visibility guard comes first; the date-input
branches reference the identifier `res`, which is not declared in any
scope of workday.js (it is a parameter of workDayAutofill), so reaching
them throws a ReferenceError; then the Discipline branch, the email and
tel format validations, and finally the native write. -/
def handleInputElementTry (ie : Elem) (jobParam param fillValue : String) (env : Env) :
    M Bool :=
  if ie.offsetParentIsNull || ie.disabled then pure false
  else if jobParam == "month-input" || jobParam == "day-input" || jobParam == "year-input" then
    throwJs (JsError.refErr "res")
  else if param == "Discipline" then disciplineBranch fillValue env
  else if ie.typeAttr == "email" && !jsIncludes fillValue "@" then pure false
  else if ie.typeAttr == "tel" && !telOk fillValue then pure false
  else do
    setNativeValue (some ie) (JVal.str fillValue)
    pure true

/-- workday.js lines 422-513: handleInputElement.  An undefined element
yields false; otherwise the try body runs and any thrown error is caught,
yielding false (the effects emitted before the throw persist). -/
def handleInputElement (ieOpt : Option Elem) (jobParam param fillValue : String)
    (env : Env) : Bool × List Effect :=
  match ieOpt with
  | none => (false, [])
  | some ie =>
    match handleInputElementTry ie jobParam param fillValue env with
    | (Except.ok b, tr) => (b, tr)
    | (Except.error _, tr) => (false, tr)

/-- workday.js lines 514-521: the textarea handler, an unvalidated native
write. -/
def handleTextareaElement (t : Option Elem) (fillValue : String) : Bool × List Effect :=
  match t with
  | none => (false, [])
  | some e => (true, [Effect.setNative e.ref (JVal.str fillValue), Effect.sleep (Dur.sym "short")])

/-- Option scan of handleSelectElement (lines 529-537): the first option
related to the fill value by case-insensitive substring in either
direction. -/
def findSelOpt (normalizedValue : String) : List SelOpt → Option SelOpt
  | [] => none
  | o :: rest =>
    if jsIncludes (jsToLower o.text) normalizedValue ||
        jsIncludes normalizedValue (jsToLower o.text) then some o
    else findSelOpt normalizedValue rest

/-- workday.js lines 523-546: the select handler.  With an element present
it always reports true: either a matching option is selected, or the value
is set directly as a fallback. -/
def handleSelectElement (t : Option Elem) (fillValue : String) : Bool × List Effect :=
  match t with
  | none => (false, [])
  | some e =>
    match findSelOpt (jsTrim (jsToLower fillValue)) e.options with
    | some o =>
      (true, [Effect.selectOption o.ref, Effect.dispatch e.ref "change",
              Effect.sleep (Dur.sym "short")])
    | none =>
      (true, [Effect.setValueProp e.ref fillValue, Effect.dispatch e.ref "change",
              Effect.sleep (Dur.sym "short")])

/-- Click pass of handleDropdownElement (lines 558-567): every div whose
text matches is clicked (forEach does not stop at the first hit). -/
def dropdownClicks (normalizedParam fillValue : String) : List OptDiv → List Effect
  | [] => []
  | d :: rest =>
    if jsIncludes (jsToLower d.text) normalizedParam ||
        jsIncludes normalizedParam (jsToLower d.text) ||
        (jsIncludes (jsToLower d.text) "self" && fillValue == "decline") then
      Effect.click d.ref :: dropdownClicks normalizedParam fillValue rest
    else dropdownClicks normalizedParam fillValue rest

/-- workday.js lines 548-575: the custom dropdown handler.  Clicking the
trigger always yields true when the element exists; the listbox, when it
rendered, is scanned with the decline special case of line 557. -/
def handleDropdownElement (t : Option Elem) (fillValue : String) (env : Env) :
    Bool × List Effect :=
  match t with
  | none => (false, [])
  | some e =>
    let opening := [Effect.click e.ref, Effect.sleep (Dur.sym "long")]
    match env.listbox with
    | none => (true, opening)
    | some divs =>
      let normalizedParam := jsTrim (jsToLower fillValue)
      let fillValue2 := if jsIncludes normalizedParam "decline" then "decline" else fillValue
      (true, opening ++ dropdownClicks normalizedParam fillValue2 divs ++
        [Effect.sleep (Dur.sym "short"), Effect.blur e.ref])

/-! ## Autofill orchestrator (workday.js lines 120-250)

`wrkDayFields = Object.assign({}, fields.workday)` copies only the top
level of the per-site field map: the stage names keep pointing at the very
same inner objects.  To express this sharing the inner per-stage sub-maps
live in a heap (a list of association lists indexed by position) and both
the configuration view `flds` and the working view `wrk` are association
lists from stage name to heap index.  `delete wrkDayFields[stage][key]`
mutates the heap entry. -/

/-- The store of per-stage sub-map objects, indexed by position. -/
abbrev Heap : Type := List (List (String × String))

/-- Removal of one key from a sub-map (JavaScript `delete obj[key]`). -/
def eraseKey (m : List (String × String)) (k : String) : List (String × String) :=
  m.filter (fun p => !(p.1 == k))

/-- Heap update: delete key `k` from the object at index `objId`. -/
def eraseField (h : Heap) (objId : Nat) (k : String) : Heap :=
  List.set h objId (eraseKey (List.getD h objId []) k)

/-- Mutable state of one workDayAutofill run: the two references into the
heap, the heap itself, and the module-level counters and flag. -/
structure OState where
  wrk : List (String × Nat)
  flds : List (String × Nat)
  heap : Heap
  retryCount : Nat
  curInstanceCompleted : Bool
deriving DecidableEq, Repr

/-- Modelled from the spec: the per-site FieldMap configuration
(`fields.workday`, supplied by a helper file that is not under src/) is a
static nested mapping stage name to (logical key to profile field name).
`initState` lays the sub-maps out in the heap and performs line 124,
`Object.assign({}, fields.workday)`: the working view receives the same
stage-to-object associations as the configuration view. -/
def initState (cfg : List (String × List (String × String))) : OState :=
  let refs := cfg.enum.map (fun p => (p.2.1, p.1))
  { wrk := refs
    flds := refs
    heap := cfg.map (fun p => p.2)
    retryCount := 0
    curInstanceCompleted := true }

/-- The sub-map the configuration view currently associates with a stage
name, read through the shared heap. -/
def fieldsSubmap (st : OState) (stage : String) : Option (List (String × String)) :=
  (lookupAssoc st.flds stage).map (fun objId => List.getD st.heap objId [])

/-- Lines 172-177 and 179-224: processing of one field once the sentinel
params have passed, ending in one of the handler chain outcomes.  Every
path reports ok; the caller deletes the entry. -/
def fieldRest (env : Env) (jobParam param : String) : M Unit :=
  match lookupAssoc env.profile param with
  | none => pure ()
  | some fillValue =>
    if !jsTruthy fillValue then pure ()
    else
      match handleInputElement (workdayQuery jobParam (env.doc 0) "input")
          jobParam param fillValue env with
      | (true, tr1) => (Except.ok (), tr1)
      | (false, tr1) =>
        match handleTextareaElement (workdayQuery jobParam (env.doc 0) "textarea") fillValue with
        | (true, tr2) => (Except.ok (), tr1 ++ tr2)
        | (false, tr2) =>
          match handleSelectElement (workdayQuery jobParam (env.doc 0) "select") fillValue with
          | (true, tr3) => (Except.ok (), tr1 ++ tr2 ++ tr3)
          | (false, tr3) =>
            match handleDropdownElement (workdayQuery jobParam (env.doc 0) "button") fillValue env with
            | (_, tr4) => (Except.ok (), tr1 ++ tr2 ++ tr3 ++ tr4)

/-- Lines 147-224: processing of one field of the working map.  The three
sentinel params dispatch to their composite handlers first; a false result
falls through to the generic chain (as in the source, where the sentinel
ifs are separate statements).  An ok result means the caller deletes the
entry: every non-throwing path of the loop body ends in a delete. -/
def fieldStep (env : Env) (jobParam param : String) : M Unit :=
  if param == "Resume" then
    match handleResume jobParam env with
    | (Except.error e, tr) => (Except.error e, tr)
    | (Except.ok true, tr) => (Except.ok (), tr)
    | (Except.ok false, tr) =>
      match fieldRest env jobParam param with
      | (r, tr2) => (r, tr ++ tr2)
  else if param == "Skills" then
    match handleSkills env with
    | (Except.error e, tr) => (Except.error e, tr)
    | (Except.ok true, tr) => (Except.ok (), tr)
    | (Except.ok false, tr) =>
      match fieldRest env jobParam param with
      | (r, tr2) => (r, tr ++ tr2)
  else if param == "Work Experience" then
    match handleWorkExperience jobParam env with
    | (Except.error e, tr) => (Except.error e, tr)
    | (Except.ok true, tr) => (Except.ok (), tr)
    | (Except.ok false, tr) =>
      match fieldRest env jobParam param with
      | (r, tr2) => (r, tr ++ tr2)
  else fieldRest env jobParam param

/-- Lines 144-225: the for-in loop over the stage sub-map.  The iteration
runs over the key snapshot taken when the loop starts (only the current
key is ever deleted, so this matches the live-object semantics); a thrown
error aborts the loop, keeping the deletions and effects made so far. -/
def processEntries (env : Env) (h : Heap) (objId : Nat) :
    List (String × String) → Except JsError Unit × Heap × List Effect
  | [] => (Except.ok (), h, [])
  | (jobParam, param) :: rest =>
    match fieldStep env jobParam param with
    | (Except.error e, tr) => (Except.error e, h, tr)
    | (Except.ok _, tr) =>
      let h2 := eraseField h objId jobParam
      match processEntries env h2 objId rest with
      | (r, h3, tr2) => (r, h3, tr ++ tr2)

/-- Retry bound of line 127. -/
def maxRetries : Nat := 3

/-- Lines 141-235: the while loop `while (!stageCompleted && retryCount <
maxRetries)`.  A successful pass resets retryCount to 0 and stops; a
thrown error increments retryCount and sleeps `1000 * retryCount`
milliseconds before the next attempt.  The loop runs at most
`maxRetries - retryCount` further iterations, since retryCount grows by
one per failed attempt; that bound is made explicit as structural fuel so
that the definition computes.  Returns the heap, the final retryCount, and
the trace. -/
def stageLoopFuel (env : Env) (objId : Nat) : Nat → Heap → Nat → Heap × Nat × List Effect
  | 0, h, rc => (h, rc, [])
  | Nat.succ fuel, h, rc =>
    if rc < maxRetries then
      match processEntries env h objId (List.getD h objId []) with
      | (Except.ok _, h2, tr) => (h2, 0, tr)
      | (Except.error _, h2, tr) =>
        match stageLoopFuel env objId fuel h2 (rc + 1) with
        | (h3, rc3, tr3) => (h3, rc3, tr ++ Effect.sleep (Dur.ms (1000 * (rc + 1))) :: tr3)
    else (h, rc, [])

/-- The while loop entered with the current retryCount. -/
def stageLoop (env : Env) (objId : Nat) (h : Heap) (rc : Nat) : Heap × Nat × List Effect :=
  stageLoopFuel env objId (maxRetries - rc) h rc

/-- Lines 129-244: one invocation of the MutationObserver callback.  The
guard of line 133 tests the detected stage for truthiness (null and the
empty string are falsy), the presence of the stage key in the working map,
and the re-entrancy flag; when it passes, the settle sleep of line 138
runs, then the retry loop, then the retryCount reset after exhaustion
(lines 237-240), and the flag is re-armed. -/
def tick (env : Env) (st : OState) : OState × List Effect :=
  match getCurStageWorkday (some env.stageDoc) with
  | none => (st, [])
  | some s =>
    if !jsTruthy s then (st, [])
    else
      match lookupAssoc st.wrk s with
      | none => (st, [])
      | some objId =>
        if !st.curInstanceCompleted then (st, [])
        else
          match stageLoop env objId st.heap st.retryCount with
          | (h2, rc2, tr) =>
            ({ st with
                heap := h2
                retryCount := if maxRetries ≤ rc2 then 0 else rc2
                curInstanceCompleted := true },
              Effect.sleep (Dur.ms 2000) :: tr)

/-! ## Concrete scenarios used by the theorems -/

/-- An empty stage-detector view. -/
def emptyDoc : Doc := { progressBar := none, headings := [], bodyText := "" }

/-- An environment with nothing in it, the base for the scenarios. -/
def baseEnv : Env :=
  { stageDoc := emptyDoc
    doc := fun _ => []
    profile := []
    localResume := none
    resumeDetails := none
    formFieldSkills := none
    skillsGrid := none
    discContainer := none
    discInput := none
    discGrid := none
    listbox := none }

/-- A plain visible input element with just an aria-label, as in the
matcher examples of the spec. -/
def ariaInput (ref : Nat) (ty aria : String) : Elem :=
  { ref := ref, tag := "input", typeAttr := ty, idAttr := "", nameAttr := ""
    dataAutomationId := none, dataAutomationLabel := none, ariaLabel := some aria
    placeholder := none, titleAttr := none, offsetParentIsNull := false
    disabled := false, options := [] }

/-- The element of the C1 example whose only candidate attribute is
aria-label set to Email Address. -/
def emailElemC1 : Elem := ariaInput 1 "text" "Email Address"

/-- The element of the C1 exclusion example whose only candidate
attribute is name set to phoneCode. -/
def phoneCodeElemC1 : Elem :=
  { ref := 2, tag := "input", typeAttr := "text", idAttr := "", nameAttr := "phoneCode"
    dataAutomationId := none, dataAutomationLabel := none, ariaLabel := none
    placeholder := none, titleAttr := none, offsetParentIsNull := false
    disabled := false, options := [] }

/-- The add-another-experience button of the work-experience scenario. -/
def addBtnElem : Elem :=
  { ref := 0, tag := "button", typeAttr := "", idAttr := "", nameAttr := ""
    dataAutomationId := none, dataAutomationLabel := none
    ariaLabel := some "Add Another Experience", placeholder := none, titleAttr := none
    offsetParentIsNull := false, disabled := false, options := [] }

/-- One sub-field element of the b-th repeated work-experience block.  The
blocks repeat the same data-automation-id per sub-field, as the Workday
markup does; only the element identity differs. -/
def expField (b off : Nat) (tg aid : String) : Elem :=
  { ref := 100 * b + off, tag := tg, typeAttr := "text", idAttr := "", nameAttr := ""
    dataAutomationId := some aid, dataAutomationLabel := none, ariaLabel := none
    placeholder := none, titleAttr := none, offsetParentIsNull := false
    disabled := false, options := [] }

/-- The b-th repeated block: the eight sub-fields of one experience
entry. -/
def expBlock (b : Nat) : List Elem :=
  [expField b 1 "input" "jobTitle",
   expField b 2 "input" "companyName",
   expField b 3 "input" "currentlyWorkHere",
   expField b 4 "textarea" "roleDescription",
   expField b 5 "input" "startDate-dateSectionMonth",
   expField b 6 "input" "startDate-dateSectionYear",
   expField b 7 "input" "endDate-dateSectionMonth",
   expField b 8 "input" "endDate-dateSectionYear"]

/-- The work-experience page after k add-experience clicks: the add button
followed by k repeated blocks in mount order. -/
def expDoc (k : Nat) : List Elem := addBtnElem :: (List.range k).flatMap expBlock

/-- The environment of the work-experience scenario: the evolving document
and the parsed experiences. -/
def envExp (exps : List ExpEntry) : Env :=
  { baseEnv with
      doc := expDoc
      resumeDetails := some { skills := [], experiences := exps } }

/-- Duration parse stated the way the spec describes it: split the
Mon YYYY-Mon YYYY string on the dash and on spaces, convert the month
names to numbers, keep the years. -/
def durSpec (s : String) : Option (Nat × String × Nat × String) := do
  let q0 ← (jsSplit s '-')[0]?
  let q1 ← (jsSplit s '-')[1]?
  let w00 ← (jsSplit (jsTrim q0) ' ')[0]?
  let y0 ← (jsSplit (jsTrim q0) ' ')[1]?
  let w10 ← (jsSplit (jsTrim q1) ' ')[0]?
  let y1 ← (jsSplit (jsTrim q1) ' ')[1]?
  let m0 ← monthToNumber w00
  let m1 ← monthToNumber w10
  pure (m0, y0, m1, y1)

/-- Expected writes for the entry at position i, stated from the claim:
one add click, then the values of the entry land on the sub-fields of the
i-th repeated block. -/
def expTraceEntry (i : Nat) (e : ExpEntry) : List Effect :=
  match durSpec e.jobDuration with
  | none => []
  | some (m0, y0, m1, y1) =>
    [Effect.click 0, Effect.sleep (Dur.ms 1250),
     Effect.setNative (100 * i + 1) (JVal.str e.jobTitle), Effect.sleep (Dur.ms 500),
     Effect.setNative (100 * i + 2) (JVal.str e.jobEmployer), Effect.sleep (Dur.ms 500),
     Effect.setNative (100 * i + 3) (JVal.bool e.isCurrentEmployer), Effect.sleep (Dur.ms 500),
     Effect.click (100 * i + 5), Effect.setNative (100 * i + 5) (JVal.num m0),
     Effect.sleep (Dur.ms 600),
     Effect.click (100 * i + 6), Effect.setNative (100 * i + 6) (JVal.str y0),
     Effect.sleep (Dur.ms 600),
     Effect.click (100 * i + 7), Effect.setNative (100 * i + 7) (JVal.num m1),
     Effect.sleep (Dur.ms 600),
     Effect.click (100 * i + 8), Effect.setNative (100 * i + 8) (JVal.str y1),
     Effect.sleep (Dur.ms 600),
     Effect.setNative (100 * i + 4) (JVal.str e.roleBulletsString)]

/-- Expected writes for a list of entries starting at position i. -/
def expTrace : List ExpEntry → Nat → List Effect
  | [], _ => []
  | e :: rest, i => expTraceEntry i e ++ expTrace rest (i + 1)

/-- Environment of the C6 witness: no stage cue anywhere. -/
def envC6 : Env := baseEnv

/-- State of the C6 witness. -/
def stC6 : OState := initState [("My Information", [("email", "Email")])]

/-- Environment of the C3 witness: the page shows the My Information
stage. -/
def envC3 : Env :=
  { baseEnv with
      stageDoc := { progressBar := none, headings := ["My Information"], bodyText := "" } }

/-- State of the C3 witness: the stage key is present but every entry of
its sub-map has already been removed. -/
def stC3 : OState :=
  { wrk := [("My Information", 0)], flds := [("My Information", 0)], heap := [[]]
    retryCount := 0, curInstanceCompleted := true }

/-- Environment of the C2 witness: the page shows the Skills stage, a
parsed resume exists, but the formField-skills container is missing, so
handleSkills throws on every attempt. -/
def envC2 : Env :=
  { baseEnv with
      stageDoc := { progressBar := none, headings := ["Skills"], bodyText := "" }
      resumeDetails := some { skills := ["Java"], experiences := [] }
      formFieldSkills := none }

/-- State of the C2 witness. -/
def stC2 : OState := initState [("Skills", [("skills", "Skills")])]

/-- Environment of the C5 scenario: a My Information page with one email
input and a profile value for it. -/
def envC5 : Env :=
  { baseEnv with
      stageDoc := { progressBar := none, headings := ["My Information"], bodyText := "" }
      doc := fun _ => [ariaInput 1 "text" "Email Address"]
      profile := [("Email", "ada@example.com")] }

/-- Initial state of the C5 scenario, straight from the configuration. -/
def stC5 : OState := initState [("My Information", [("email", "Email")])]

/-- The input element of the C7 counterexample: type email, visible and
enabled. -/
def emailElemC7 : Elem := ariaInput 3 "email" "Email Address"

/-- Environment of the C7 counterexample: the Discipline multiselect
container and the field-of-study input exist; no results grid rendered. -/
def envC7 : Env :=
  { baseEnv with discContainer := some 50, discInput := some 51, discGrid := none }

/-- Environment of the C7 orchestrator scenario: an email input whose
stored profile value is not a valid email, and no other matching field. -/
def envC7b : Env :=
  { baseEnv with
      stageDoc := { progressBar := none, headings := ["My Information"], bodyText := "" }
      doc := fun _ => [ariaInput 1 "email" "Email Address"]
      profile := [("Email", "invalid")] }

/-- Initial state of the C7 orchestrator scenario. -/
def stC7b : OState := initState [("My Information", [("email", "Email")])]

/-- A rendered skill option whose label matches Java but carries the
disambiguation marker. -/
def ambOptC9 : GridOpt := { ariaLabel := some "Java | Technology", ref := 10, firstChildRef := some 11 }

/-- A rendered skill option whose label matches Java cleanly. -/
def cleanOptC9 : GridOpt := { ariaLabel := some "Java", ref := 20, firstChildRef := some 21 }

/-- The skills multiselect of the C9 scenario. -/
def msC9 : Multiselect :=
  { containerRef := 40
    inputAt10 := some { ref := 41, dataAutomationId := some "monikerSearchBox" }
    inputAt00 := none }

/-- Environment of the C9 scenario: one skill, and a results list whose
only matching option is ambiguous. -/
def envC9 : Env :=
  { baseEnv with
      resumeDetails := some { skills := ["Java"], experiences := [] }
      formFieldSkills := some msC9
      skillsGrid := some [ambOptC9] }

/-- First experience entry of the C8 witness. -/
def expA : ExpEntry :=
  { jobTitle := "Engineer", jobEmployer := "Acme", jobDuration := "Jan 2020-Mar 2021"
    isCurrentEmployer := false, roleBulletsString := "Built things" }

/-- Second experience entry of the C8 witness. -/
def expB : ExpEntry :=
  { jobTitle := "Senior Engineer", jobEmployer := "Globex", jobDuration := "Apr 2021-May 2022"
    isCurrentEmployer := true, roleBulletsString := "Led things" }

/-! ## Lemmas about the computation model -/

theorem bind_ok_eq {α β : Type} (a : α) (tr : List Effect) (f : α → M β) :
    @Bind.bind M _ _ _ (Except.ok a, tr) f = ((f a).1, tr ++ (f a).2) := by
  rcases h : f a with ⟨r, tr2⟩
  simp [Bind.bind, monadM, h]

theorem bind_err_eq {α β : Type} (e : JsError) (tr : List Effect) (f : α → M β) :
    @Bind.bind M _ _ _ (Except.error e, tr) f = (Except.error e, tr) := rfl

theorem pure_eq {α : Type} (a : α) : (pure a : M α) = (Except.ok a, []) := rfl

/-! ## Claim C1 -/

theorem attrHitQ_any_iff (key : String) (e : Elem) :
    ((candAttrs e).any (attrHitQ (jsToLower key)) = true) ↔ matchesSpec key e := by
  rw [List.any_eq_true]
  constructor
  · rintro ⟨a, ha, hhit⟩
    cases a with
    | none => simp [attrHitQ] at hhit
    | some s =>
      simp only [attrHitQ, Bool.and_eq_true, Bool.not_eq_true'] at hhit
      exact ⟨some s, ha, s, rfl, hhit.1.1, hhit.1.2, hhit.2⟩
  · rintro ⟨a, ha, s, rfl, h1, h2, h3⟩
    refine ⟨some s, ha, ?_⟩
    simp [attrHitQ, h1, h2, h3]

/-- Claim C1: for every root element list and tag selector, workdayQuery
returns the first element in document order for which some candidate
attribute (id, name, data-automation-id, data-automation-label,
aria-label, placeholder, title; lowercased and trimmed) contains the
lowercased logical key as a substring and that same attribute contains
neither phonecode nor countrycode; for key email an element with
aria-label Email Address is returned, and for key code an element whose
only candidate attribute is name phoneCode is not matched. -/
theorem C1_matcher_first_and_exclusions :
    (∀ (key : String) (doc : List Elem) (t : String) (e : Elem),
        workdayQuery key doc t = some e ↔
          matchesSpec key e ∧ ∃ pre post, queryTag doc t = pre ++ e :: post ∧
            ∀ x ∈ pre, ¬ matchesSpec key x)
    ∧ workdayQuery "email" [emailElemC1] "input" = some emailElemC1
    ∧ workdayQuery "code" [phoneCodeElemC1] "input" = none := by
  refine ⟨?_, by decide, by decide⟩
  intro key doc t e
  rw [workdayQuery, List.find?_eq_some]
  constructor
  · rintro ⟨hhit, pre, post, hsplit, hpre⟩
    refine ⟨(attrHitQ_any_iff key e).mp hhit, pre, post, hsplit, ?_⟩
    intro x hx hmx
    have := hpre x hx
    rw [Bool.not_eq_true'] at this
    rw [← attrHitQ_any_iff key x] at hmx
    simp [this] at hmx
  · rintro ⟨hm, pre, post, hsplit, hpre⟩
    refine ⟨(attrHitQ_any_iff key e).mpr hm, pre, post, hsplit, ?_⟩
    intro x hx
    rw [Bool.not_eq_true']
    by_contra hne
    rw [Bool.not_eq_false] at hne
    exact hpre x hx ((attrHitQ_any_iff key x).mp hne)

theorem C1_matcher_witness :
    matchesSpec "email" emailElemC1 ∧
      ∃ pre post, queryTag [emailElemC1] "input" = pre ++ emailElemC1 :: post ∧
        ∀ x ∈ pre, ¬ matchesSpec "email" x :=
  (C1_matcher_first_and_exclusions.1 "email" [emailElemC1] "input" emailElemC1).mp
    C1_matcher_first_and_exclusions.2.1

/-! ## Claim C4 -/

theorem scanIndicators_eq_find (t : String) (l : List String) :
    scanIndicators t l = l.find? (fun stg => jsIncludes t stg) := by
  induction l with
  | nil => rfl
  | cons a as ih =>
    rw [scanIndicators, List.find?_cons]
    cases h : jsIncludes t a <;> simp [h, ih]

theorem scanHeadings_eq_findSome (hs : List String) :
    scanHeadings hs =
      hs.findSome? (fun hd => stageIndicators.find? (fun stg => jsIncludes (jsTrim hd) stg)) := by
  induction hs with
  | nil => rfl
  | cons a as ih =>
    rw [scanHeadings, List.findSome?_cons, scanIndicators_eq_find]
    cases stageIndicators.find? (fun stg => jsIncludes (jsTrim a) stg) <;> simp [ih]

/-- Claim C4: on a document with no progress-bar container,
getCurStageWorkday returns the first stage-vocabulary name contained in
some heading-role element text (headings in document order, vocabulary in
its fixed order per heading); if no heading matches it returns the first
vocabulary name contained in the body text; if none is found it returns
null; in particular a document whose only stage cue is a heading Work
Experience yields Work Experience. -/
theorem C4_stage_fallback :
    (∀ (hs : List String) (bt : String),
        getCurStageWorkday (some { progressBar := none, headings := hs, bodyText := bt }) =
          ((hs.findSome? fun hd => stageIndicators.find? fun stg => jsIncludes (jsTrim hd) stg) <|>
            stageIndicators.find? fun stg => jsIncludes bt stg))
    ∧ getCurStageWorkday
        (some { progressBar := none, headings := ["Work Experience"], bodyText := "" }) =
          some "Work Experience" := by
  constructor
  · intro hs bt
    show (match scanHeadings hs with
      | some stg => some stg
      | none => scanIndicators bt stageIndicators) = _
    rw [scanHeadings_eq_findSome, scanIndicators_eq_find]
    cases hs.findSome? (fun hd => stageIndicators.find? (fun stg => jsIncludes (jsTrim hd) stg)) <;>
      simp [Option.orElse]
  · decide

/-! ## Unfolding lemmas for the retry loop -/

theorem stageLoop_step (env : Env) (objId : Nat) (h : Heap) (rc : Nat)
    (hrc : rc < maxRetries) :
    stageLoop env objId h rc =
      match processEntries env h objId (List.getD h objId []) with
      | (Except.ok _, h2, tr) => (h2, 0, tr)
      | (Except.error _, h2, tr) =>
        match stageLoop env objId h2 (rc + 1) with
        | (h3, rc3, tr3) => (h3, rc3, tr ++ Effect.sleep (Dur.ms (1000 * (rc + 1))) :: tr3) := by
  have hf : maxRetries - rc = Nat.succ (maxRetries - (rc + 1)) := by omega
  rw [stageLoop, hf, stageLoopFuel, if_pos hrc]
  rfl

theorem stageLoop_done (env : Env) (objId : Nat) (h : Heap) (rc : Nat)
    (hrc : maxRetries ≤ rc) :
    stageLoop env objId h rc = (h, rc, []) := by
  have hf : maxRetries - rc = 0 := by omega
  rw [stageLoop, hf, stageLoopFuel]

/-! ## Claim C6 -/

/-- Claim C6: for every mutation batch in which the detected stage is null
or is not a key of the working field map, the orchestrator performs no
fill: it writes to no DOM field, removes no working-map entry, and does
not throw (the tick returns the unchanged state and an empty trace). -/
theorem C6_stage_mismatch_skips :
    ∀ (env : Env) (st : OState),
      (getCurStageWorkday (some env.stageDoc) = none ∨
        ∃ s, getCurStageWorkday (some env.stageDoc) = some s ∧ lookupAssoc st.wrk s = none) →
      tick env st = (st, []) := by
  intro env st h
  rcases h with h | ⟨s, hs, hl⟩
  · simp [tick, h]
  · rw [tick, hs]
    cases hts : jsTruthy s with
    | false => simp [hts]
    | true => simp [hts, hl]

theorem C6_witness : tick envC6 stC6 = (stC6, []) :=
  C6_stage_mismatch_skips envC6 stC6 (Or.inl (by decide))

/-! ## Claim C3 -/

/-- Claim C3: running the mutation-triggered pass again over an unchanged
document, for a stage whose working-map entries have all already been
removed, writes no value to any DOM field: the trace contains no native
set, click, or event dispatch, and the heap of sub-maps is unchanged. -/
theorem C3_second_pass_no_writes :
    ∀ (env : Env) (st : OState) (s : String) (objId : Nat),
      getCurStageWorkday (some env.stageDoc) = some s → jsTruthy s = true →
      lookupAssoc st.wrk s = some objId → List.getD st.heap objId [] = [] →
      st.curInstanceCompleted = true →
      (tick env st).1.heap = st.heap ∧
        (tick env st).2.all (fun e => !e.isWrite) = true := by
  intro env st s objId hs hts hl hempty hflag
  have hloop : stageLoop env objId st.heap st.retryCount =
      (st.heap, if st.retryCount < maxRetries then 0 else st.retryCount, []) := by
    by_cases hrc : st.retryCount < maxRetries
    · rw [stageLoop_step env objId st.heap st.retryCount hrc, hempty]
      simp [processEntries, hrc]
    · rw [stageLoop_done env objId st.heap st.retryCount (by omega)]
      simp [hrc]
  rw [tick, hs]
  simp [hts, hl, hflag, hloop, Effect.isWrite]

theorem C3_witness :
    (tick envC3 stC3).1.heap = stC3.heap ∧
      (tick envC3 stC3).2.all (fun e => !e.isWrite) = true :=
  C3_second_pass_no_writes envC3 stC3 "My Information" 0 (by decide) (by decide) (by decide)
    (by decide) (by decide)

/-! ## Claim C2 -/

/-- Claim C2: if processing the fields of a stage always throws, the
per-stage retry loop makes exactly maxRetries = 3 attempts, sleeping
k times 1000 milliseconds after the k-th failed attempt, then abandons the
stage with a normal return (no exception escapes the observer callback)
and resets retryCount to 0. -/
theorem C2_retry_bound :
    ∀ (env : Env) (st : OState) (s : String) (objId : Nat)
      (e1 e2 e3 : JsError) (h1 h2 h3 : Heap) (tr1 tr2 tr3 : List Effect),
      getCurStageWorkday (some env.stageDoc) = some s → jsTruthy s = true →
      lookupAssoc st.wrk s = some objId → st.curInstanceCompleted = true →
      st.retryCount = 0 →
      processEntries env st.heap objId (List.getD st.heap objId []) =
        (Except.error e1, h1, tr1) →
      processEntries env h1 objId (List.getD h1 objId []) = (Except.error e2, h2, tr2) →
      processEntries env h2 objId (List.getD h2 objId []) = (Except.error e3, h3, tr3) →
      tick env st =
        ({ st with heap := h3, retryCount := 0, curInstanceCompleted := true },
          Effect.sleep (Dur.ms 2000) ::
            (tr1 ++ Effect.sleep (Dur.ms 1000) ::
              (tr2 ++ Effect.sleep (Dur.ms 2000) ::
                (tr3 ++ [Effect.sleep (Dur.ms 3000)])))) := by
  intro env st s objId e1 e2 e3 h1 h2 h3 tr1 tr2 tr3 hs hts hl hflag hrc0 hp1 hp2 hp3
  have l3 : stageLoop env objId h3 3 = (h3, 3, []) :=
    stageLoop_done env objId h3 3 (by simp [maxRetries])
  have l2 : stageLoop env objId h2 2 = (h3, 3, tr3 ++ [Effect.sleep (Dur.ms 3000)]) := by
    rw [stageLoop_step env objId h2 2 (by simp [maxRetries])]
    rw [hp3]
    simp [l3]
  have l1 : stageLoop env objId h1 1 =
      (h3, 3, tr2 ++ Effect.sleep (Dur.ms 2000) :: (tr3 ++ [Effect.sleep (Dur.ms 3000)])) := by
    rw [stageLoop_step env objId h1 1 (by simp [maxRetries])]
    rw [hp2]
    simp [l2]
  have l0 : stageLoop env objId st.heap 0 =
      (h3, 3, tr1 ++ Effect.sleep (Dur.ms 1000) ::
        (tr2 ++ Effect.sleep (Dur.ms 2000) :: (tr3 ++ [Effect.sleep (Dur.ms 3000)]))) := by
    rw [stageLoop_step env objId st.heap 0 (by simp [maxRetries])]
    rw [hp1]
    simp [l1]
  rw [tick, hs]
  simp [hts, hl, hflag, hrc0, l0, maxRetries]

theorem C2_witness :
    tick envC2 stC2 =
      ({ stC2 with heap := stC2.heap, retryCount := 0, curInstanceCompleted := true },
        [Effect.sleep (Dur.ms 2000), Effect.sleep (Dur.ms 1000), Effect.sleep (Dur.ms 2000),
          Effect.sleep (Dur.ms 3000)]) := by
  have h := C2_retry_bound envC2 stC2 "Skills" 0
    (JsError.typeErr "querySelector of null") (JsError.typeErr "querySelector of null")
    (JsError.typeErr "querySelector of null") stC2.heap stC2.heap stC2.heap [] [] []
    (by decide) (by decide) (by decide) (by decide) (by decide) (by decide) (by decide)
    (by decide)
  simpa using h

/-! ## Claim C5 -/

/-- Claim C5 counterexample: the claim states that deletions performed on
the working map during a pass leave the per-stage sub-maps of
fields.workday unchanged; in the C5 scenario one mutation-triggered pass
changes the sub-map the configuration view sees for My Information,
because Object.assign copies only the top level and the sub-map objects
are shared. -/
theorem C5_counterexample :
    fieldsSubmap (tick envC5 stC5).1 "My Information" ≠ fieldsSubmap stC5 "My Information" := by
  decide

/-- Claim C5 amended: the working map is a shallow copy of fields.workday:
the top-level stage associations of both views are copied on entry and
never modified by a pass, but the per-stage sub-map objects are shared, so
deleting resolved entries during a pass mutates the sub-maps seen through
fields.workday (in the C5 scenario the My Information sub-map is empty
after the pass). -/
theorem C5_shallow_copy_amended :
    (∀ cfg, (initState cfg).wrk = (initState cfg).flds)
    ∧ (∀ (env : Env) (st : OState), (tick env st).1.wrk = st.wrk ∧ (tick env st).1.flds = st.flds)
    ∧ fieldsSubmap (tick envC5 stC5).1 "My Information" = some [] := by
  refine ⟨fun cfg => rfl, ?_, by decide⟩
  intro env st
  cases hg : getCurStageWorkday (some env.stageDoc) with
  | none => simp [tick, hg]
  | some s =>
    cases hts : jsTruthy s with
    | false => simp [tick, hg, hts]
    | true =>
      cases hl : lookupAssoc st.wrk s with
      | none => simp [tick, hg, hts, hl]
      | some objId =>
        cases hflag : st.curInstanceCompleted with
        | false => simp [tick, hg, hts, hl, hflag]
        | true => simp [tick, hg, hts, hl, hflag]

/-! ## Claim C7 -/

/-- Claim C7 counterexample: the claim states that handleInputElement on
an input of type email whose fill value contains no at sign returns false
without writing; with target profile field Discipline the handler instead
runs the Discipline choreography and returns true. -/
theorem C7_counterexample :
    handleInputElement (some emailElemC7) "fieldOfStudy" "Discipline" "not-an-email" envC7 =
      (true,
        [Effect.click 50, Effect.sleep (Dur.ms 1000), Effect.setValueProp 51 "not-an-email",
         Effect.setAttr 51 "value" "not-an-email", Effect.sleep (Dur.ms 500),
         Effect.dispatch 51 "keydown", Effect.sleep (Dur.ms 2000),
         Effect.dispatch 51 "keyup"]) := by
  decide

/-- Claim C7 amended: provided the target profile field is not Discipline
(whose branch bypasses format validation), handleInputElement on an input
of type email whose value contains no at sign, or of type tel whose value
fails the telephone character test, returns false with no effect; and in
the orchestrator scenario the failing field entry is dropped in a single
pass with no write and no retry. -/
theorem C7_validation_amended :
    (∀ (ie : Elem) (jobParam param fillValue : String) (env : Env),
        ¬ param = "Discipline" →
        ((ie.typeAttr = "email" ∧ jsIncludes fillValue "@" = false) ∨
          (ie.typeAttr = "tel" ∧ telOk fillValue = false)) →
        handleInputElement (some ie) jobParam param fillValue env = (false, []))
    ∧ tick envC7b stC7b =
        ({ stC7b with heap := [[]], retryCount := 0, curInstanceCompleted := true },
          [Effect.sleep (Dur.ms 2000)]) := by
  constructor
  · intro ie jp p fv env hp hval
    have hpd : (p == "Discipline") = false := by
      simpa using hp
    rw [handleInputElement, handleInputElementTry]
    by_cases hvis : (ie.offsetParentIsNull || ie.disabled) = true
    · simp [hvis, pure]
    · rw [Bool.not_eq_true] at hvis
      by_cases hdate : (jp == "month-input" || jp == "day-input" || jp == "year-input") = true
      · simp [hvis, hdate, throwJs]
      · rw [Bool.not_eq_true] at hdate
        rcases hval with ⟨hty, hv⟩ | ⟨hty, hv⟩
        · simp [hvis, hdate, hpd, hty, hv, pure]
        · simp [hvis, hdate, hpd, hty, hv, pure]
  · decide

theorem C7_validation_witness :
    handleInputElement (some emailElemC7) "email" "Email" "invalid" baseEnv = (false, []) :=
  C7_validation_amended.1 emailElemC7 "email" "Email" "invalid" baseEnv (by decide)
    (Or.inl ⟨rfl, by decide⟩)

/-! ## Claim C10 -/

/-- Claim C10: handleInputElement never propagates an exception when its
input-element argument is defined: every error of the try body, including
the ReferenceError from the undeclared identifier res reached when the
logical key is month-input, day-input or year-input, is caught and the
handler returns false with the effects emitted before the throw. -/
theorem C10_input_handler_catches :
    (∀ (ie : Elem) (jobParam param fillValue : String) (env : Env) (e : JsError)
        (tr : List Effect),
        handleInputElementTry ie jobParam param fillValue env = (Except.error e, tr) →
        handleInputElement (some ie) jobParam param fillValue env = (false, tr))
    ∧ (∀ (ie : Elem) (param fillValue : String) (env : Env),
        ie.offsetParentIsNull = false → ie.disabled = false →
        (handleInputElementTry ie "month-input" param fillValue env =
            (Except.error (JsError.refErr "res"), []) ∧
          handleInputElementTry ie "day-input" param fillValue env =
            (Except.error (JsError.refErr "res"), []) ∧
          handleInputElementTry ie "year-input" param fillValue env =
            (Except.error (JsError.refErr "res"), []) ∧
          handleInputElement (some ie) "month-input" param fillValue env = (false, []))) := by
  constructor
  · intro ie jp p fv env e tr herr
    rw [handleInputElement, herr]
  · intro ie p fv env hvis hdis
    have h1 : handleInputElementTry ie "month-input" p fv env =
        (Except.error (JsError.refErr "res"), []) := by
      rw [handleInputElementTry]
      simp [hvis, hdis, throwJs]
    have h2 : handleInputElementTry ie "day-input" p fv env =
        (Except.error (JsError.refErr "res"), []) := by
      rw [handleInputElementTry]
      simp [hvis, hdis, throwJs]
    have h3 : handleInputElementTry ie "year-input" p fv env =
        (Except.error (JsError.refErr "res"), []) := by
      rw [handleInputElementTry]
      simp [hvis, hdis, throwJs]
    exact ⟨h1, h2, h3, by rw [handleInputElement, h1]⟩

theorem C10_witness :
    handleInputElement (some (ariaInput 9 "text" "Month")) "month-input" "Month" "5" baseEnv =
      (false, []) :=
  (C10_input_handler_catches.2 (ariaInput 9 "text" "Month") "Month" "5" baseEnv rfl rfl).2.2.2

/-! ## Claim C9 -/

/-- Claim C9 evaluated on the code: with a clean match present the first
clean matching option is clicked (first conjunct), but when every matching
label carries the vertical-bar marker the loop clicks nothing, because
backupOption is assigned o.children[o], which is undefined; handleSkills
then finishes the skill with no option click at all (third conjunct).  The
claim says an ambiguous matching option would be clicked as a fallback. -/
theorem C9_skills_pick_eval :
    gridPick "Java" [ambOptC9, cleanOptC9] = (Except.ok (), [Effect.click 21])
    ∧ gridPick "Java" [ambOptC9] = (Except.ok (), [])
    ∧ handleSkills envC9 =
        (Except.ok true,
          [Effect.click 40, Effect.sleep (Dur.ms 500), Effect.focus 41,
           Effect.sleep (Dur.ms 200), Effect.setValueProp 41 "Java",
           Effect.setAttr 41 "value" "Java", Effect.dispatch 41 "input",
           Effect.dispatch 41 "change", Effect.sleep (Dur.ms 200),
           Effect.dispatch 41 "keydown", Effect.dispatch 41 "keyup",
           Effect.sleep (Dur.ms 1000), Effect.sleep (Dur.sym "short")]) := by
  exact ⟨by decide, by decide, by decide⟩

/-! ## Claim C8 -/

theorem workdayQueryAll_append (p : String) (l1 l2 : List Elem) (t : String) :
    workdayQueryAll p (l1 ++ l2) t = workdayQueryAll p l1 t ++ workdayQueryAll p l2 t := by
  simp [workdayQueryAll, queryTag, List.filter_append]

theorem expDoc_succ (n : Nat) : expDoc (n + 1) = expDoc n ++ expBlock n := by
  simp [expDoc, List.range_succ, List.flatMap_append]

theorem queryAll_expDoc_of (aid tg : String) (off : Nat)
    (hbtn : workdayQueryAll aid [addBtnElem] tg = [])
    (hblock : ∀ b, workdayQueryAll aid (expBlock b) tg = [expField b off tg aid]) :
    ∀ k, workdayQueryAll aid (expDoc k) tg =
      (List.range k).map (fun b => expField b off tg aid) := by
  intro k
  induction k with
  | zero => simpa [expDoc] using hbtn
  | succ n ih =>
    rw [expDoc_succ, workdayQueryAll_append, ih, hblock, List.range_succ]
    simp

theorem queryAll_jobTitle (k : Nat) :
    workdayQueryAll "jobTitle" (expDoc k) "input" =
      (List.range k).map (fun b => expField b 1 "input" "jobTitle") :=
  queryAll_expDoc_of "jobTitle" "input" 1 (by decide) (fun b => rfl) k

theorem queryAll_companyName (k : Nat) :
    workdayQueryAll "companyName" (expDoc k) "input" =
      (List.range k).map (fun b => expField b 2 "input" "companyName") :=
  queryAll_expDoc_of "companyName" "input" 2 (by decide) (fun b => rfl) k

theorem queryAll_currentlyWorkHere (k : Nat) :
    workdayQueryAll "currentlyWorkHere" (expDoc k) "input" =
      (List.range k).map (fun b => expField b 3 "input" "currentlyWorkHere") :=
  queryAll_expDoc_of "currentlyWorkHere" "input" 3 (by decide) (fun b => rfl) k

theorem queryAll_roleDescription (k : Nat) :
    workdayQueryAll "roleDescription" (expDoc k) "textarea" =
      (List.range k).map (fun b => expField b 4 "textarea" "roleDescription") :=
  queryAll_expDoc_of "roleDescription" "textarea" 4 (by decide) (fun b => rfl) k

theorem queryAll_startMonth (k : Nat) :
    workdayQueryAll "startDate-dateSectionMonth" (expDoc k) "input" =
      (List.range k).map (fun b => expField b 5 "input" "startDate-dateSectionMonth") :=
  queryAll_expDoc_of "startDate-dateSectionMonth" "input" 5 (by decide) (fun b => rfl) k

theorem queryAll_startYear (k : Nat) :
    workdayQueryAll "startDate-dateSectionYear" (expDoc k) "input" =
      (List.range k).map (fun b => expField b 6 "input" "startDate-dateSectionYear") :=
  queryAll_expDoc_of "startDate-dateSectionYear" "input" 6 (by decide) (fun b => rfl) k

theorem queryAll_endMonth (k : Nat) :
    workdayQueryAll "endDate-dateSectionMonth" (expDoc k) "input" =
      (List.range k).map (fun b => expField b 7 "input" "endDate-dateSectionMonth") :=
  queryAll_expDoc_of "endDate-dateSectionMonth" "input" 7 (by decide) (fun b => rfl) k

theorem queryAll_endYear (k : Nat) :
    workdayQueryAll "endDate-dateSectionYear" (expDoc k) "input" =
      (List.range k).map (fun b => expField b 8 "input" "endDate-dateSectionYear") :=
  queryAll_expDoc_of "endDate-dateSectionYear" "input" 8 (by decide) (fun b => rfl) k

theorem getElem_map_range {α : Type} (f : Nat → α) (i : Nat) :
    ((List.range (i + 1)).map f)[i]? = some (f i) := by
  rw [List.getElem?_map, List.getElem?_range (Nat.lt_succ_self i)]
  rfl

theorem expStep_eval (exps : List ExpEntry) (e : ExpEntry) (i : Nat)
    (m0 : Nat) (y0 : String) (m1 : Nat) (y1 : String)
    (hd : durSpec e.jobDuration = some (m0, y0, m1, y1)) :
    expStep (envExp exps) (some addBtnElem) e i = (Except.ok (), expTraceEntry i e) := by
  have hd0 := hd
  rw [durSpec] at hd
  rcases h0 : (jsSplit e.jobDuration '-')[0]? with _ | q0 <;> rw [h0] at hd <;>
    simp only [Option.bind_eq_bind, Option.none_bind, Option.some_bind] at hd
  · exact Option.noConfusion hd
  rcases h1 : (jsSplit e.jobDuration '-')[1]? with _ | q1 <;> rw [h1] at hd <;>
    simp only [Option.bind_eq_bind, Option.none_bind, Option.some_bind] at hd
  · exact Option.noConfusion hd
  rcases hw00 : (jsSplit (jsTrim q0) ' ')[0]? with _ | w00 <;> rw [hw00] at hd <;>
    simp only [Option.bind_eq_bind, Option.none_bind, Option.some_bind] at hd
  · exact Option.noConfusion hd
  rcases hy0 : (jsSplit (jsTrim q0) ' ')[1]? with _ | y0x <;> rw [hy0] at hd <;>
    simp only [Option.bind_eq_bind, Option.none_bind, Option.some_bind] at hd
  · exact Option.noConfusion hd
  rcases hw10 : (jsSplit (jsTrim q1) ' ')[0]? with _ | w10 <;> rw [hw10] at hd <;>
    simp only [Option.bind_eq_bind, Option.none_bind, Option.some_bind] at hd
  · exact Option.noConfusion hd
  rcases hy1 : (jsSplit (jsTrim q1) ' ')[1]? with _ | y1x <;> rw [hy1] at hd <;>
    simp only [Option.bind_eq_bind, Option.none_bind, Option.some_bind] at hd
  · exact Option.noConfusion hd
  rcases hm0 : monthToNumber w00 with _ | n0 <;> rw [hm0] at hd <;>
    simp only [Option.bind_eq_bind, Option.none_bind, Option.some_bind] at hd
  · exact Option.noConfusion hd
  rcases hm1 : monthToNumber w10 with _ | n1 <;> rw [hm1] at hd <;>
    simp only [Option.bind_eq_bind, Option.none_bind, Option.some_bind, Option.pure_def,
      Option.some_inj, Prod.mk.injEq] at hd
  · exact Option.noConfusion hd
  obtain ⟨ha, hb, hc, he⟩ := hd
  subst ha; subst hb; subst hc; subst he
  rw [expTraceEntry, hd0]
  simp only [expStep, envExp, baseEnv]
  rw [queryAll_jobTitle, queryAll_companyName, queryAll_currentlyWorkHere,
    queryAll_roleDescription, queryAll_startMonth, queryAll_startYear,
    queryAll_endMonth, queryAll_endYear]
  simp only [getElem_map_range]
  simp only [h0, h1, hw00, hy0, hw10, hy1, Option.map_some, Option.some_bind]
  simp [clickElem, setNativeValue, sleepM, emit, bind_ok_eq, pure_eq, jvalOfMonth,
    jvalOfWord, h0, h1, hw00, hy0, hw10, hy1, hm0, hm1, expField, addBtnElem]

theorem expLoop_eval (exps : List ExpEntry) :
    ∀ (l : List ExpEntry) (i : Nat),
      (∀ e ∈ l, (durSpec e.jobDuration).isSome = true) →
      expLoop (envExp exps) (some addBtnElem) l i = (Except.ok (), expTrace l i) := by
  intro l
  induction l with
  | nil => intro i _; rfl
  | cons e rest ih =>
    intro i h
    have hd := h e (List.mem_cons_self e rest)
    rw [Option.isSome_iff_exists] at hd
    obtain ⟨⟨m0, y0, m1, y1⟩, hd⟩ := hd
    rw [expLoop]
    rw [expStep_eval exps e i m0 y0 m1 y1 hd]
    rw [bind_ok_eq]
    rw [ih (i + 1) (fun x hx => h x (List.mem_cons_of_mem _ hx))]
    rw [expTrace]

/-- Claim C8: handleWorkExperience processes the experience entries in
order; for the i-th entry it clicks the add trigger once, then writes the
entry values (jobTitle, jobEmployer, isCurrentEmployer,
roleBulletsString) and the duration fields into the i-th document-order
match of each sub-field query across the whole document; the duration of
the form Mon YYYY-Mon YYYY is split on the dash and on spaces, month names
become numbers and the years are kept; so entry 0 lands in the first
repeated block and entry 1 in the second. -/
theorem C8_work_experience_positional :
    ∀ (exps : List ExpEntry),
      (∀ e ∈ exps, (durSpec e.jobDuration).isSome = true) →
      handleWorkExperience "Add" (envExp exps) =
        (Except.ok true, expTrace exps 0 ++ [Effect.sleep (Dur.sym "short")]) := by
  intro exps h
  have hloop := expLoop_eval exps exps 0 h
  show (do
      expLoop (envExp exps) (some addBtnElem) exps 0
      sleepM (Dur.sym "short")
      (pure true : M Bool)) = _
  rw [hloop, bind_ok_eq]
  simp [sleepM, emit, bind_ok_eq, pure_eq]

theorem C8_witness :
    handleWorkExperience "Add" (envExp [expA, expB]) =
      (Except.ok true, expTrace [expA, expB] 0 ++ [Effect.sleep (Dur.sym "short")]) :=
  C8_work_experience_positional [expA, expB] (by decide)

end Trackr
